import Mathlib

/-!
Verification development for the `forwarder-` backend.

Shallow embedding of the parts of the code the claims concern:
`app/core/security.py` (token issuance/verification, Fernet field
encryption), `app/crud.py` (user / forwarding-rule / message-log
repositories), `app/config.py` and `app/database.py` (database-URL
normalization), `app/core/optimizations.py` (tolerant cache wrapper),
`app/schemas.py` (password validation) and `app/routers/auth.py`
(token refresh route).

Conventions: Python strings are `String` (or `List Char` where we
reason about prefixes character by character), `None` is `Option.none`,
raised exceptions are `Except.error`, UTC instants are `Int` seconds.
External library primitives (HS256 signing, Fernet, sha256, bcrypt)
are modelled symbolically: a signed token is a record pairing its
claims with the signing key, and signature verification is key
equality; hash functions are taken as function parameters.
-/

namespace Forwarder

/-- The configuration fields of `app/config.py : Settings` that the
security subsystem reads. -/
structure SettingsM where
  SECRET_KEY : String
  ACCESS_TOKEN_EXPIRE_MINUTES : Int
  REFRESH_TOKEN_EXPIRE_DAYS : Int
deriving DecidableEq, Repr

/-- The claims a token of this codebase may carry: `sub`, `exp`,
`email`, `type` (`app/core/security.py` lines 25, 42, 72, 93). Absent
claims are `none`; `exp` is always present in issued tokens. -/
structure JwtClaims where
  sub : Option String
  exp : Int
  email : Option String
  type : Option String
deriving DecidableEq, Repr

/-- Symbolic model of an HS256-signed JWT: the claims together with
the key it was signed with. -/
structure Jwt where
  claims : JwtClaims
  key : String
deriving DecidableEq, Repr

/-- Model of `jose.jwt.encode(to_encode, key, algorithm)`. -/
def jwt_encode (claims : JwtClaims) (key : String) : Jwt :=
  ⟨claims, key⟩

/-- Model of `jose.jwt.decode(token, key, algorithms)` at UTC instant
`now`: raises `JWTError` (here: `none`) when the signature does not
verify under `key` or the `exp` claim is in the past (`jose` treats
`exp < now` as expired with zero leeway); otherwise returns the
payload. -/
def jwt_decode (tok : Jwt) (key : String) (now : Int) : Option JwtClaims :=
  if tok.key = key ∧ ¬ tok.claims.exp < now then some tok.claims else none

/-- `Security.create_access_token` (security.py lines 14-29): expiry is
`utcnow + expires_delta` when a delta is supplied, else
`utcnow + ACCESS_TOKEN_EXPIRE_MINUTES` minutes; payload
`{"exp": expire, "sub": str(subject)}`. `now` is seconds, a supplied
delta is seconds. -/
def create_access_token (st : SettingsM) (subject : String) (now : Int)
    (expires_delta : Option Int) : Jwt :=
  let expire : Int :=
    match expires_delta with
    | some d => now + d
    | none => now + st.ACCESS_TOKEN_EXPIRE_MINUTES * 60
  jwt_encode ⟨some subject, expire, none, none⟩ st.SECRET_KEY

/-- `Security.create_refresh_token` (security.py lines 31-46): like the
access token but default lifetime `REFRESH_TOKEN_EXPIRE_DAYS` days and
an extra claim `"type": "refresh"`. -/
def create_refresh_token (st : SettingsM) (subject : String) (now : Int)
    (expires_delta : Option Int) : Jwt :=
  let expire : Int :=
    match expires_delta with
    | some d => now + d
    | none => now + st.REFRESH_TOKEN_EXPIRE_DAYS * 86400
  jwt_encode ⟨some subject, expire, none, some "refresh"⟩ st.SECRET_KEY

/-- `Security.verify_token` (security.py lines 56-67): decode with the
process secret key; on any `JWTError` return `None`; if the `sub`
claim is missing return `None`; else return the subject. -/
def verify_token (st : SettingsM) (tok : Jwt) (now : Int) : Option String :=
  match jwt_decode tok st.SECRET_KEY now with
  | none => none
  | some payload =>
    match payload.sub with
    | none => none
    | some subject => some subject

/-- `Security.create_verification_token` (security.py lines 69-75):
payload `{"exp": utcnow + 24h, "email": email, "type": "verification"}`. -/
def create_verification_token (st : SettingsM) (email : String) (now : Int) : Jwt :=
  jwt_encode ⟨none, now + 24 * 3600, some email, some "verification"⟩ st.SECRET_KEY

/-- `Security.verify_verification_token` (security.py lines 77-88):
decode with the process secret key; `None` on `JWTError`; `None` when
the `type` claim is not exactly `"verification"`; else the `email`
claim (which may itself be absent). -/
def verify_verification_token (st : SettingsM) (tok : Jwt) (now : Int) :
    Option String :=
  match jwt_decode tok st.SECRET_KEY now with
  | none => none
  | some payload =>
    if payload.type ≠ some "verification" then none
    else payload.email

end Forwarder

namespace Forwarder

/-! ### Fernet field encryption (security.py, `DataEncryption`) -/

/-- Symbolic model of a Fernet ciphertext: the encryption key together
with the plaintext it encrypts. Fernet's contract: decryption with the
same key recovers the plaintext, any other key fails (`InvalidToken`). -/
structure FernetToken where
  key : String
  plaintext : String
deriving DecidableEq, Repr

/-- Model of `Fernet(key).encrypt(data)`. -/
def fernetEncrypt (key : String) (data : String) : FernetToken :=
  ⟨key, data⟩

/-- Model of `Fernet(key).decrypt(tok)`: succeeds exactly when the key
matches (`InvalidToken`, i.e. `none`, otherwise). -/
def fernetDecrypt (key : String) (tok : FernetToken) : Option String :=
  if tok.key = key then some tok.plaintext else none

/-- `DataEncryption._get_fernet` (security.py lines 115-122): the
Fernet key is `urlsafe_b64encode(sha256(SECRET_KEY)[:32])`, built once
and cached; the external `sha256` digest (a byte list) and the base64
encoder are taken as parameters. Determined by the secret alone. -/
def fernetKeyOf (sha256d : String → List Nat) (b64e : List Nat → String)
    (secret : String) : String :=
  b64e ((sha256d secret).take 32)

/-- `DataEncryption.encrypt_data` (security.py lines 124-127). -/
def encrypt_data (sha256d : String → List Nat) (b64e : List Nat → String)
    (secret : String) (data : String) : FernetToken :=
  fernetEncrypt (fernetKeyOf sha256d b64e secret) data

/-- `DataEncryption.decrypt_data` (security.py lines 129-132);
`InvalidToken` is `none`. -/
def decrypt_data (sha256d : String → List Nat) (b64e : List Nat → String)
    (secret : String) (tok : FernetToken) : Option String :=
  fernetDecrypt (fernetKeyOf sha256d b64e secret) tok

/-- The decrypted credential dict: exactly the three named fields
`api_id`, `api_hash`, `phone_number`. -/
structure TelegramCredsPlain where
  api_id : String
  api_hash : String
  phone_number : String
deriving DecidableEq, Repr

/-- The encrypted credential dict returned by
`encrypt_telegram_credentials`: the same three keys, each holding a
ciphertext. -/
structure TelegramCredsEnc where
  api_id : FernetToken
  api_hash : FernetToken
  phone_number : FernetToken
deriving DecidableEq, Repr

/-- `DataEncryption.encrypt_telegram_credentials` (security.py lines
134-145). -/
def encrypt_telegram_credentials (sha256d : String → List Nat)
    (b64e : List Nat → String) (secret : String)
    (api_id api_hash phone_number : String) : TelegramCredsEnc :=
  ⟨encrypt_data sha256d b64e secret api_id,
   encrypt_data sha256d b64e secret api_hash,
   encrypt_data sha256d b64e secret phone_number⟩

/-- `DataEncryption.decrypt_telegram_credentials` (security.py lines
147-153); a decryption failure on any field raises (`none`). -/
def decrypt_telegram_credentials (sha256d : String → List Nat)
    (b64e : List Nat → String) (secret : String)
    (c : TelegramCredsEnc) : Option TelegramCredsPlain :=
  match decrypt_data sha256d b64e secret c.api_id,
        decrypt_data sha256d b64e secret c.api_hash,
        decrypt_data sha256d b64e secret c.phone_number with
  | some a, some h, some p => some ⟨a, h, p⟩
  | _, _, _ => none

/-! ### Database-URL normalization (config.py / database.py)

Python `str` values are embedded as `List Char` here, so that
`startswith` and `replace(old, new, 1)` can be reasoned about
character by character. Under a `startswith(old)` guard,
`replace(old, new, 1)` is exactly "drop the prefix, prepend `new`"
(the first occurrence of `old` is the one at position 0). -/

/-- `"postgres://"` as a character list. -/
def pgLegacyScheme : List Char := "postgres://".data

/-- `"postgresql://"` as a character list. -/
def pgCanonicalScheme : List Char := "postgresql://".data

/-- `"postgresql+psycopg2://"` as a character list. -/
def pgPsycopg2Scheme : List Char := "postgresql+psycopg2://".data

/-- `Settings.fix_postgres_url` (config.py lines 33-38): the
`DATABASE_URL` validator. `None` and the empty string are falsy in
`if v and v.startswith(...)`, so they pass through unchanged; a value
starting with `postgres://` has that prefix rewritten to
`postgresql://`; anything else passes through. -/
def fix_postgres_url (v : Option (List Char)) : Option (List Char) :=
  match v with
  | none => none
  | some s =>
    if s ≠ [] ∧ pgLegacyScheme.isPrefixOf s then
      some (pgCanonicalScheme ++ s.drop pgLegacyScheme.length)
    else some s

/-- `get_database_url` (database.py lines 8-20): raises `ValueError`
when `DATABASE_URL` is unset or empty (falsy); rewrites a
`postgres://` prefix to `postgresql+psycopg2://`; otherwise rewrites a
`postgresql://` prefix to `postgresql+psycopg2://`; else returns the
URL unchanged. -/
def get_database_url (databaseUrl : Option (List Char)) :
    Except String (List Char) :=
  match databaseUrl with
  | none => .error "DATABASE_URL not set"
  | some s =>
    if s = [] then .error "DATABASE_URL not set"
    else if pgLegacyScheme.isPrefixOf s then
      .ok (pgPsycopg2Scheme ++ s.drop pgLegacyScheme.length)
    else if pgCanonicalScheme.isPrefixOf s then
      .ok (pgPsycopg2Scheme ++ s.drop pgCanonicalScheme.length)
    else .ok s

/-! ### Password validation (schemas.py, `UserCreate.validate_password`) -/

/-- `re.search(r"[A-Z]", v)` finds a character in the ASCII range
`A`-`Z`. -/
def hasUppercaseChar (v : List Char) : Bool :=
  v.any fun c => decide ('A' ≤ c ∧ c ≤ 'Z')

/-- `re.search(r"[a-z]", v)` finds a character in the ASCII range
`a`-`z`. -/
def hasLowercaseChar (v : List Char) : Bool :=
  v.any fun c => decide ('a' ≤ c ∧ c ≤ 'z')

/-- Python's `\d` on a `str` matches any Unicode decimal digit
(category Nd). The class lives in the external regex engine's Unicode
tables, so — like the other external primitives here — it enters the
embedding as a function parameter `digitClass`; every theorem below
that quantifies over it covers the actual class as one instance.
`re.search(r"\d", v)` then finds a character of the class. -/
def hasDigitChar (digitClass : Char → Bool) (v : List Char) : Bool :=
  v.any digitClass

/-- The restriction of Unicode `\d` to code points below `0x80`: on
ASCII-only inputs (such as the spec's example passwords) Python's
`\d` matches exactly `0`-`9`. -/
def asciiDigit (c : Char) : Bool :=
  decide ('0' ≤ c ∧ c ≤ '9')

/-- `UserCreate.validate_password` (schemas.py lines 29-39): the four
checks in source order, each clause raising its own `ValueError`
message; a valid password is returned unchanged. `digitClass` is the
regex engine's Unicode decimal-digit class (see `hasDigitChar`). -/
def validate_password (digitClass : Char → Bool) (v : List Char) :
    Except String (List Char) :=
  if v.length < 8 then
    .error "Password must be at least 8 characters"
  else if ¬ hasUppercaseChar v then
    .error "Password must contain at least one uppercase letter"
  else if ¬ hasLowercaseChar v then
    .error "Password must contain at least one lowercase letter"
  else if ¬ hasDigitChar digitClass v then
    .error "Password must contain at least one number"
  else .ok v

/-! ### Tolerant cache wrapper (optimizations.py) -/

/-- Model of a Redis client for `cache_with_timeout`: all that is
observed of it is whether `setex key ttl value` succeeds or raises. -/
structure RedisModel where
  setex : String → Nat → String → Except String Unit

/-- `FreeTierOptimizer.cache_with_timeout` (optimizations.py lines
20-30): `None` when no client is configured; on a successful `setex`
returns `True`; any exception from the cache is caught, logged and
turned into `None`. The outer `Except` layer records whether the call
itself raises (it never does). -/
def cache_with_timeout (redis : Option RedisModel) (key : String)
    (value : String) (ttl : Nat) : Except String (Option Bool) :=
  match redis with
  | none => .ok none
  | some r =>
    match r.setex key ttl value with
    | .ok _ => .ok (some true)
    | .error _ => .ok none

/-! ### Forwarding-rule creation cap (crud.py, `CRUDForwardingRule.create`) -/

/-- `CRUDForwardingRule.create` (crud.py lines 323-378), restricted to
the state it reads and writes for the tier cap: the user's
`subscription_tier` and the count of the user's existing rules. The
two guards run before the insert, so an error inserts nothing; on
success one rule row is added (the new count is returned). -/
def forwarding_rule_create (subscription_tier : String) (rule_count : Nat) :
    Except String Nat :=
  if subscription_tier = "free" ∧ rule_count ≥ 3 then
    .error "Free tier limited to 3 forwarding rules"
  else if subscription_tier = "pro" ∧ rule_count ≥ 20 then
    .error "Pro tier limited to 20 forwarding rules"
  else .ok (rule_count + 1)

/-! ### User repository state (crud.py, `CRUDUser`; models.py `User`,
`UserProfile`)

Rows carry the fields the claims observe. `uuid4` freshness is
modelled by a monotone `nextId` counter on the database state; bcrypt
hashing is an external function parameter. -/

/-- The `users` columns read or written by `CRUDUser.create` /
`verify_email` (models.py lines 13-52). -/
structure UserRow where
  id : Nat
  email : String
  password_hash : String
  full_name : Option String
  company_name : Option String
  phone : Option String
  is_active : Bool
  is_verified : Bool
  verification_token : Option Jwt
  verification_expires : Option Int
deriving DecidableEq, Repr

/-- A `user_profiles` row (models.py lines 63-78); only identity and
the owning user are relevant here. -/
structure ProfileRow where
  id : Nat
  user_id : Nat
deriving DecidableEq, Repr

/-- The persisted state the user repository acts on. -/
structure DBState where
  users : List UserRow
  profiles : List ProfileRow
  nextId : Nat
deriving DecidableEq, Repr

/-- The input schema `UserCreate` (schemas.py lines 26-39), after
validation. -/
structure UserCreateIn where
  email : String
  password : String
  full_name : Option String
  company_name : Option String
  phone : Option String
deriving DecidableEq, Repr

/-- `CRUDUser.get_by_email` (crud.py lines 23-27). -/
def user_get_by_email (db : DBState) (email : String) : Option UserRow :=
  db.users.find? fun u => u.email == email

/-- The `User` row `CRUDUser.create` builds (crud.py lines 42-50):
hashed password, fresh 24-hour verification token and expiry, model
defaults for the flag columns. -/
def newUserRow (st : SettingsM) (hash : String → String) (now : Int)
    (db : DBState) (obj : UserCreateIn) : UserRow :=
  { id := db.nextId
    email := obj.email
    password_hash := hash obj.password
    full_name := obj.full_name
    company_name := obj.company_name
    phone := obj.phone
    is_active := true
    is_verified := false
    verification_token := some (create_verification_token st obj.email now)
    verification_expires := some (now + 24 * 3600) }

/-- The paired `UserProfile` row (crud.py line 57): `user_id` is the
just-created user's id. -/
def newProfileRow (db : DBState) : ProfileRow :=
  { id := db.nextId + 1, user_id := db.nextId }

/-- One row insertion, as flushed to the database by a `db.commit()`. -/
inductive RowInsert where
  | userIns (u : UserRow)
  | profileIns (p : ProfileRow)
deriving DecidableEq, Repr

/-- One committed transaction (unit of work): the rows it inserted. -/
abbrev Commit := List RowInsert

/-- Whether any single commit of a trace inserts both a `users` row
and a `user_profiles` row — i.e. whether user and profile are created
in the same unit of work. -/
def pairedInOneCommit (commits : List Commit) : Bool :=
  commits.any fun c =>
    (c.any fun r => match r with | .userIns _ => true | _ => false)
    && (c.any fun r => match r with | .profileIns _ => true | _ => false)

/-- `CRUDUser.create` (crud.py lines 35-62): reject an existing email
with `ValueError("User with this email already exists")`; otherwise
add the user row and commit (lines 52-53), then add the paired profile
row and commit again (lines 57-59) — two successive transactions of
the same session, recorded here as the returned commit trace — and
return the user. `hash` models `security.get_password_hash` (bcrypt). -/
def user_create (st : SettingsM) (hash : String → String) (now : Int)
    (db : DBState) (obj : UserCreateIn) :
    Except String (DBState × List Commit × UserRow) :=
  match user_get_by_email db obj.email with
  | some _ => .error "User with this email already exists"
  | none =>
    let u : UserRow := newUserRow st hash now db obj
    -- db.add(db_obj); await db.commit(): first transaction, the user row
    let db1 : DBState := { db with users := db.users ++ [u], nextId := db.nextId + 1 }
    -- profile = UserProfile(user_id=db_obj.id); db.add(profile);
    -- await db.commit(): second transaction, the profile row
    let profile : ProfileRow := newProfileRow db
    let db2 : DBState :=
      { db1 with profiles := db1.profiles ++ [profile], nextId := db.nextId + 2 }
    .ok (db2, [[.userIns u], [.profileIns profile]], u)

/-- `CRUDUser.verify_email` (crud.py lines 79-96): verify the
presented JWT (`verify_verification_token`, which checks only the
signature, expiry and `type` claim — never the stored
`verification_token` column); `if not email` treats `None` and the
empty string as failure; look the user up by the embedded email; on
success set `is_verified` and clear the stored token/expiry, returning
the updated user. -/
def verify_email (st : SettingsM) (db : DBState) (token : Jwt) (now : Int) :
    Option UserRow × DBState :=
  match verify_verification_token st token now with
  | none => (none, db)
  | some email =>
    if email = "" then (none, db)
    else
      match user_get_by_email db email with
      | none => (none, db)
      | some u =>
        let u' : UserRow :=
          { u with is_verified := true
                   verification_token := none
                   verification_expires := none }
        (some u',
         { db with users := db.users.map fun v => if v.email == email then u' else v })

/-- Number of `users` rows carrying `email`. -/
def countUsersWithEmail (db : DBState) (email : String) : Nat :=
  (db.users.filter fun u => u.email == email).length

/-- Number of `user_profiles` rows whose `user_id` is some user
carrying `email`. -/
def countProfilesForEmail (db : DBState) (email : String) : Nat :=
  (db.profiles.filter fun p =>
    (db.users.filter fun u => u.email == email).any fun u => u.id == p.user_id).length

/-- Well-formedness of the state: every stored id is below the
freshness counter (what `uuid4` guarantees for future draws). -/
def DBStateWf (db : DBState) : Bool :=
  (db.users.all fun u => u.id < db.nextId) &&
  (db.profiles.all fun p => p.user_id < db.nextId)

/-! ### Token-refresh route (routers/auth.py, `refresh_token`) -/

/-- `refresh_token` route (auth.py lines 95-132): verify the presented
token with the generic `verify_token` (no inspection of the `type`
claim); 401 when verification is absent; look up the user by the
subject, 401 when missing or inactive; otherwise issue a fresh
access/refresh pair with the configured lifetimes. -/
def refresh_token_route (st : SettingsM) (db : DBState) (tok : Jwt)
    (now : Int) : Except Nat (Jwt × Jwt) :=
  match verify_token st tok now with
  | none => .error 401
  | some user_id =>
    match db.users.find? (fun u => toString u.id == user_id) with
    | none => .error 401
    | some user =>
      if ¬ user.is_active then .error 401
      else
        .ok (create_access_token st (toString user.id) now
               (some (st.ACCESS_TOKEN_EXPIRE_MINUTES * 60)),
             create_refresh_token st (toString user.id) now
               (some (st.REFRESH_TOKEN_EXPIRE_DAYS * 86400)))

/-! ### Message-log statistics (crud.py, `CRUDMessageLog.get_user_stats`)

crud.py line 3 imports exactly `select, update, delete, func, and_, or_`
from sqlalchemy; line 487 applies `case`, which is therefore an
unresolved name — every execution of `get_user_stats` raises
`NameError` when it reaches the success-rate query. The intended
arithmetic (what the queries would compute) is modelled separately
over exact rationals in `get_user_stats_logic`. -/

/-- The `message_logs` columns the statistics read (models.py lines
212-241). -/
structure MessageLogM where
  status : String
  processing_time_ms : Option Int
  forwarded_at : Int
deriving DecidableEq, Repr

/-- The names crud.py line 3 imports from sqlalchemy. -/
def crudSqlalchemyImports : List String :=
  ["select", "update", "delete", "func", "and_", "or_"]

/-- The dict `get_user_stats` is meant to return. -/
structure UserStats where
  messages_today : Nat
  messages_this_month : Nat
  success_rate : ℚ
  average_processing_time_ms : ℚ
deriving DecidableEq, Repr

/-- Round-half-even to an integer, what Python `round` does at exact
values. -/
def roundHalfEven (q : ℚ) : ℤ :=
  let f := ⌊q⌋
  let r := q - f
  if r < 1 / 2 then f
  else if 1 / 2 < r then f + 1
  else if f % 2 = 0 then f else f + 1

/-- `round(x, 2)` over exact rationals. -/
def roundTo2 (q : ℚ) : ℚ :=
  (roundHalfEven (q * 100) : ℚ) / 100

/-- The arithmetic of `get_user_stats` (crud.py lines 450-513) over a
user's logs, with the day and month boundaries as parameters:
counts of logs from today and from this month; success rate
`success / total * 100` guarded by `if row.total > 0 else 100`;
average of the non-absent `processing_time_ms` values with
`result.scalar() or 0` when there are none; both rounded to two
decimals. -/
def get_user_stats_logic (logs : List MessageLogM) (today firstOfMonth : Int) :
    UserStats :=
  let messages_today := (logs.filter fun l => today ≤ l.forwarded_at).length
  let messages_this_month :=
    (logs.filter fun l => firstOfMonth ≤ l.forwarded_at).length
  let total := logs.length
  let succ := (logs.filter fun l => l.status == "success").length
  let success_rate : ℚ :=
    if 0 < total then (succ : ℚ) / (total : ℚ) * 100 else 100
  let times := logs.filterMap fun l => l.processing_time_ms
  let avg : ℚ :=
    if times.length = 0 then 0
    else ((times.map fun t => (t : ℚ)).sum) / (times.length : ℚ)
  { messages_today := messages_today
    messages_this_month := messages_this_month
    success_rate := roundTo2 success_rate
    average_processing_time_ms := roundTo2 avg }

/-- `CRUDMessageLog.get_user_stats` as executed: the success-rate
query applies the name `case`, which crud.py never imports, so the
call raises `NameError` before producing a result; otherwise it would
return `get_user_stats_logic`. -/
def get_user_stats (logs : List MessageLogM) (today firstOfMonth : Int) :
    Except String UserStats :=
  if crudSqlalchemyImports.contains "case" then
    .ok (get_user_stats_logic logs today firstOfMonth)
  else .error "NameError: name case is not defined"

end Forwarder

namespace Forwarder

/-! ## Helper lemmas -/

/-- `hasUppercaseChar` holds exactly when some character lies in
`A`-`Z`. -/
theorem hasUppercaseChar_iff (v : List Char) :
    hasUppercaseChar v = true ↔ ∃ c ∈ v, 'A' ≤ c ∧ c ≤ 'Z' := by
  simp [hasUppercaseChar, List.any_eq_true]

/-- `hasLowercaseChar` holds exactly when some character lies in
`a`-`z`. -/
theorem hasLowercaseChar_iff (v : List Char) :
    hasLowercaseChar v = true ↔ ∃ c ∈ v, 'a' ≤ c ∧ c ≤ 'z' := by
  simp [hasLowercaseChar, List.any_eq_true]

/-- `hasDigitChar` holds exactly when some character is of the digit
class. -/
theorem hasDigitChar_iff (digitClass : Char → Bool) (v : List Char) :
    hasDigitChar digitClass v = true ↔ ∃ c ∈ v, digitClass c = true := by
  simp [hasDigitChar, List.any_eq_true]

/-! ## Claims -/

/-- C5: generic token verification collapses all failure causes: for
every token, `verify_token` is absent exactly when the token is signed
with a different key than the process secret, or its expiry has
passed, or the `sub` claim is missing; and it returns `some s` exactly
when none of those hold and the subject is `s` — so the three failure
causes are indistinguishable to the caller. -/
theorem verify_token_collapses_failures (st : SettingsM) (tok : Jwt) (now : Int) :
    (verify_token st tok now = none ↔
      (tok.key ≠ st.SECRET_KEY ∨ tok.claims.exp < now ∨ tok.claims.sub = none))
    ∧ ∀ s : String, verify_token st tok now = some s ↔
      (tok.key = st.SECRET_KEY ∧ ¬ tok.claims.exp < now ∧ tok.claims.sub = some s) := by
  unfold verify_token jwt_decode
  by_cases h : tok.key = st.SECRET_KEY ∧ ¬ tok.claims.exp < now
  · rw [if_pos h]
    cases hs : tok.claims.sub with
    | none => simp [h.1, h.2, hs]
    | some s => simp [h.1, h.2, hs]
  · rw [if_neg h]
    rw [Classical.not_and_iff_or_not_not, not_not] at h
    refine ⟨⟨fun _ => ?_, fun _ => rfl⟩, fun s => ⟨fun hc => ?_, fun ⟨hk, he, _⟩ => ?_⟩⟩
    · rcases h with h | h
      · exact Or.inl h
      · exact Or.inr (Or.inl h)
    · exact Option.noConfusion hc
    · rcases h with h | h
      · exact absurd hk h
      · exact absurd h he

/-- C6: credential encryption round-trip: for every api id, api hash
and phone number, encrypting with `encrypt_telegram_credentials` and
decrypting with `decrypt_telegram_credentials` (both keyed by the
Fernet key derived deterministically from the process secret) returns
exactly the original three fields under the keys `api_id`, `api_hash`,
`phone_number`. -/
theorem telegram_credentials_roundtrip (sha256d : String → List Nat)
    (b64e : List Nat → String) (secret api_id api_hash phone_number : String) :
    decrypt_telegram_credentials sha256d b64e secret
      (encrypt_telegram_credentials sha256d b64e secret api_id api_hash phone_number)
      = some ⟨api_id, api_hash, phone_number⟩ := by
  simp [decrypt_telegram_credentials, encrypt_telegram_credentials,
        decrypt_data, encrypt_data, fernetDecrypt, fernetEncrypt]

/-- C7: cache writes degrade gracefully: for every client, key, value
and ttl, `cache_with_timeout` never raises — it either returns the
success indicator `True` or returns `None`; and with no cache client
configured it returns `None`. -/
theorem cache_with_timeout_graceful (redis : Option RedisModel)
    (key value : String) (ttl : Nat) :
    (cache_with_timeout redis key value ttl = .ok (some true)
      ∨ cache_with_timeout redis key value ttl = .ok none)
    ∧ cache_with_timeout none key value ttl = .ok none := by
  refine ⟨?_, rfl⟩
  cases redis with
  | none => exact Or.inr rfl
  | some r =>
    cases h : r.setex key ttl value with
    | ok _ => exact Or.inl (by simp [cache_with_timeout, h])
    | error _ => exact Or.inr (by simp [cache_with_timeout, h])

/-- C2: per-tier rule cap: a `free`-tier user's create fails with the
free-tier error exactly when they already have 3 or more rules and
inserts exactly one rule otherwise; a `pro`-tier create fails with the
pro-tier error exactly at 20 or more; an `enterprise` create never
fails on count. In particular the 4th free-tier rule (count 3) fails
and, upgraded to `pro`, creation succeeds until the count reaches 20. -/
theorem forwarding_rule_tier_cap (n : Nat) :
    (forwarding_rule_create "free" n
        = .error "Free tier limited to 3 forwarding rules" ↔ 3 ≤ n)
    ∧ (forwarding_rule_create "free" n = .ok (n + 1) ↔ n < 3)
    ∧ (forwarding_rule_create "pro" n
        = .error "Pro tier limited to 20 forwarding rules" ↔ 20 ≤ n)
    ∧ (forwarding_rule_create "pro" n = .ok (n + 1) ↔ n < 20)
    ∧ forwarding_rule_create "enterprise" n = .ok (n + 1) := by
  unfold forwarding_rule_create
  refine ⟨?_, ?_, ?_, ?_, ?_⟩ <;> split_ifs <;> simp_all

/-- C9: registration password validation succeeds exactly when the
password has length at least 8 and contains an uppercase letter, a
lowercase letter and a character of the regex engine's decimal-digit
class — proved for every digit class, so in particular for the actual
Unicode `\d` class; each violated clause yields its own distinct
message (the four messages are pairwise different). On the spec's
ASCII example passwords `\d` coincides with `asciiDigit`, and
`Abcdefgh` fails for the missing digit while `Abcdef12` passes. -/
theorem validate_password_spec :
    (∀ (digitClass : Char → Bool) (v : List Char),
      validate_password digitClass v = .ok v ↔
        (8 ≤ v.length ∧ (∃ c ∈ v, 'A' ≤ c ∧ c ≤ 'Z')
          ∧ (∃ c ∈ v, 'a' ≤ c ∧ c ≤ 'z') ∧ (∃ c ∈ v, digitClass c = true)))
    ∧ validate_password asciiDigit "Abcdefgh".data
        = .error "Password must contain at least one number"
    ∧ validate_password asciiDigit "Abcdef12".data = .ok "Abcdef12".data
    ∧ validate_password asciiDigit "Abcdef1".data
        = .error "Password must be at least 8 characters"
    ∧ validate_password asciiDigit "abcdefg1".data
        = .error "Password must contain at least one uppercase letter"
    ∧ validate_password asciiDigit "ABCDEFG1".data
        = .error "Password must contain at least one lowercase letter"
    ∧ ("Password must be at least 8 characters"
        ∉ ["Password must contain at least one uppercase letter",
           "Password must contain at least one lowercase letter",
           "Password must contain at least one number"]
      ∧ ("Password must contain at least one uppercase letter" : String)
          ≠ "Password must contain at least one lowercase letter"
      ∧ ("Password must contain at least one uppercase letter" : String)
          ≠ "Password must contain at least one number"
      ∧ ("Password must contain at least one lowercase letter" : String)
          ≠ "Password must contain at least one number") := by
  refine ⟨?_, rfl, rfl, rfl, rfl, rfl, by decide⟩
  intro digitClass v
  unfold validate_password
  rw [← hasUppercaseChar_iff, ← hasLowercaseChar_iff, ← hasDigitChar_iff]
  split_ifs with h1 h2 h3 h4 <;> simp_all

/-- C4, counterexample: the two database-URL rewrites do NOT produce
the same string on an input with the legacy `postgres://` prefix: the
configuration validator yields the `postgresql://` scheme while the
session-factory path yields `postgresql+psycopg2://`. -/
theorem url_rewrites_differ_on_legacy_prefix :
    fix_postgres_url (some "postgres://db".data) = some "postgresql://db".data
    ∧ get_database_url (some "postgres://db".data)
        = .ok "postgresql+psycopg2://db".data
    ∧ "postgresql://db".data ≠ "postgresql+psycopg2://db".data := by
  exact ⟨rfl, rfl, by decide⟩

/-- C4, amended: for every connection string with the legacy
`postgres://` prefix the configuration validator rewrites it to
`postgresql://` while the session-factory path rewrites it to
`postgresql+psycopg2://` — the two rewrites differ; but the
session-factory rewrite absorbs the configuration rewrite, so its
output (the URL the engine actually receives) is the same whether or
not the validator ran first. -/
theorem url_rewrites_compose_consistently (rest : List Char) :
    fix_postgres_url (some (pgLegacyScheme ++ rest))
        = some (pgCanonicalScheme ++ rest)
    ∧ get_database_url (some (pgLegacyScheme ++ rest))
        = .ok (pgPsycopg2Scheme ++ rest)
    ∧ get_database_url (fix_postgres_url (some (pgLegacyScheme ++ rest)))
        = get_database_url (some (pgLegacyScheme ++ rest)) := by
  have hne : pgLegacyScheme ++ rest ≠ [] := by simp [pgLegacyScheme]
  have hpre : pgLegacyScheme.isPrefixOf (pgLegacyScheme ++ rest) = true := by
    simp +decide [pgLegacyScheme, List.isPrefixOf]
  have hdropL : (pgLegacyScheme ++ rest).drop pgLegacyScheme.length = rest := by
    simp +decide [pgLegacyScheme]
  have h1 : fix_postgres_url (some (pgLegacyScheme ++ rest))
      = some (pgCanonicalScheme ++ rest) := by
    simp [fix_postgres_url, hne, hpre, hdropL]
  have h2 : get_database_url (some (pgLegacyScheme ++ rest))
      = .ok (pgPsycopg2Scheme ++ rest) := by
    simp [get_database_url, hne, hpre, hdropL]
  have hnotc : pgLegacyScheme.isPrefixOf (pgCanonicalScheme ++ rest) = false := by
    simp +decide [pgLegacyScheme, pgCanonicalScheme, List.isPrefixOf]
  have hneC : pgCanonicalScheme ++ rest ≠ [] := by simp [pgCanonicalScheme]
  have hpreC : pgCanonicalScheme.isPrefixOf (pgCanonicalScheme ++ rest) = true := by
    simp +decide [pgCanonicalScheme, List.isPrefixOf]
  have hdropC : (pgCanonicalScheme ++ rest).drop pgCanonicalScheme.length = rest := by
    simp +decide [pgCanonicalScheme]
  have h4 : get_database_url (some (pgCanonicalScheme ++ rest))
      = .ok (pgPsycopg2Scheme ++ rest) := by
    simp [get_database_url, hneC, hnotc, hpreC, hdropC]
  exact ⟨h1, h2, by rw [h1, h2, h4]⟩

/-- C3: as written, `get_user_stats` never returns normally: the
success-rate query applies `case`, a name crud.py never imports, so
every call (in particular one for a user with zero message logs)
raises `NameError`. The arithmetic the function is meant to perform
does yield `success_rate = 100` and `average_processing_time_ms = 0`
on zero logs, as the last two conjuncts show. -/
theorem get_user_stats_raises_nameerror :
    (∀ (logs : List MessageLogM) (today firstOfMonth : Int),
      get_user_stats logs today firstOfMonth
        = .error "NameError: name case is not defined")
    ∧ (get_user_stats_logic [] 0 0).success_rate = 100
    ∧ (get_user_stats_logic [] 0 0).average_processing_time_ms = 0 := by
  refine ⟨fun logs today fom => rfl, ?_, ?_⟩
  · norm_num [get_user_stats_logic, roundTo2, roundHalfEven]
  · norm_num [get_user_stats_logic, roundTo2, roundHalfEven]

/-- The settings of the C1 replay scenario. -/
def c1Settings : SettingsM := ⟨"test-secret", 11520, 30⟩

/-- A verification token freshly issued at time 0 for the C1 user. -/
def c1Token : Jwt := create_verification_token c1Settings "alice@example.com" 0

/-- The freshly registered, unverified C1 user, holding the stored
copy of the token and its expiry. -/
def c1User : UserRow :=
  ⟨0, "alice@example.com", "hash", none, none, none, true, false,
   some c1Token, some 86400⟩

/-- The database state right after the C1 user registered. -/
def c1Db : DBState := ⟨[c1User], [⟨1, 0⟩], 2⟩

/-- C1 is violated by the code: the first `verify_email` call with the
fresh token does set `is_verified` and clear the stored token/expiry,
but a second call with the very same token (one hour later, well
within the token's 24-hour JWT lifetime) again returns the user — not
the absent result the claim requires — because
`verify_verification_token` checks only the JWT signature, expiry and
`type` claim and never consults the cleared `verification_token`
column. -/
theorem verify_email_token_replay :
    ((verify_email c1Settings c1Db c1Token 3600).1.map
        (fun u => (u.is_verified, u.verification_token, u.verification_expires))
      = some (true, none, none))
    ∧ ((verify_email c1Settings c1Db c1Token 3600).2.users.map
        (fun u => (u.is_verified, u.verification_token, u.verification_expires)))
      = [(true, none, none)]
    ∧ (verify_email c1Settings
        (verify_email c1Settings c1Db c1Token 3600).2 c1Token 7200).1.isSome
      = true := by
  refine ⟨rfl, rfl, rfl⟩

/-- C10: `verify_token` never inspects the `type` claim, so an
unexpired refresh token yields its subject just as an access token
does; consequently the refresh route, which guards only with
`verify_token`, accepts a plain access token (no `type` claim) and
issues a fresh token pair for the resolved active user. -/
theorem refresh_route_accepts_access_token (st : SettingsM) (db : DBState)
    (u : UserRow) (iat now : Int)
    (hfind : db.users.find? (fun v => toString v.id == toString u.id) = some u)
    (hact : u.is_active = true)
    (hexpA : ¬ iat + st.ACCESS_TOKEN_EXPIRE_MINUTES * 60 < now)
    (hexpR : ¬ iat + st.REFRESH_TOKEN_EXPIRE_DAYS * 86400 < now) :
    verify_token st (create_refresh_token st (toString u.id) iat none) now
      = some (toString u.id)
    ∧ verify_token st (create_access_token st (toString u.id) iat none) now
      = some (toString u.id)
    ∧ (refresh_token_route st db
        (create_access_token st (toString u.id) iat none) now).isOk = true := by
  have hA : verify_token st (create_access_token st (toString u.id) iat none) now
      = some (toString u.id) := by
    unfold verify_token create_access_token jwt_encode jwt_decode
    rw [if_pos ⟨rfl, hexpA⟩]
  have hR : verify_token st (create_refresh_token st (toString u.id) iat none) now
      = some (toString u.id) := by
    unfold verify_token create_refresh_token jwt_encode jwt_decode
    rw [if_pos ⟨rfl, hexpR⟩]
  refine ⟨hR, hA, ?_⟩
  unfold refresh_token_route
  rw [hA]
  simp [hfind, hact, Except.isOk, Except.toBool]

/-- The first registration request of the C8 scenario. -/
def c8Obj : UserCreateIn := ⟨"carol@example.com", "Passw0rd1", none, none, none⟩

/-- The duplicate registration request of the C8 scenario: same email,
different password. -/
def c8Obj2 : UserCreateIn := ⟨"carol@example.com", "0therPass2", none, none, none⟩

/-- The empty initial state of the C8 scenario. -/
def c8Db0 : DBState := ⟨[], [], 0⟩

/-- C8, counterexample: at a concrete registration from the empty
state, `create` succeeds with a trace of exactly two commits, and no
single commit of the trace inserts both the `users` row and the
`user_profiles` row — the paired profile is NOT created in the same
unit of work as the user (crud.py commits the user on line 53 and the
profile separately on line 59). -/
theorem user_create_profile_not_same_unit_of_work :
    ((user_create c1Settings (fun s => s) 0 c8Db0 c8Obj).map
        fun r => (r.2.1.length, pairedInOneCommit r.2.1))
      = .ok (2, false) := by
  rfl

/-- C8, amended: from any well-formed state with no user under the
given email, the first `create` succeeds, inserting exactly one
`users` row and its paired `user_profiles` row — the profile in a
second commit immediately following the user row's commit (two
successive transactions of the one create call, not one shared unit of
work); a second `create` with the same email fails with the "already
exists" domain error and inserts nothing, leaving exactly one `users`
row and one `user_profiles` row for that email. -/
theorem user_create_duplicate_and_pairing (st : SettingsM)
    (hash : String → String) (now now2 : Int) (db : DBState)
    (obj obj2 : UserCreateIn)
    (hemail : obj2.email = obj.email)
    (hnone : db.users.filter (fun u => u.email == obj.email) = [])
    (hwf : DBStateWf db = true) :
    ∃ db1 commits u1, user_create st hash now db obj = .ok (db1, commits, u1)
      ∧ user_create st hash now2 db1 obj2
          = .error "User with this email already exists"
      ∧ countUsersWithEmail db1 obj.email = 1
      ∧ countProfilesForEmail db1 obj.email = 1
      ∧ db1.users.length = db.users.length + 1
      ∧ db1.profiles.length = db.profiles.length + 1
      ∧ commits = [[.userIns u1], [.profileIns (newProfileRow db)]] := by
  simp only [DBStateWf, Bool.and_eq_true, List.all_eq_true, decide_eq_true_eq] at hwf
  have hforall : ∀ x ∈ db.users, ¬ (x.email == obj.email) = true :=
    List.filter_eq_nil_iff.mp hnone
  have hnone' : user_get_by_email db obj.email = none :=
    List.find?_eq_none.mpr hforall
  refine ⟨{ users := db.users ++ [newUserRow st hash now db obj]
            profiles := db.profiles ++ [newProfileRow db]
            nextId := db.nextId + 2 },
          [[.userIns (newUserRow st hash now db obj)],
           [.profileIns (newProfileRow db)]],
          newUserRow st hash now db obj, ?_, ?_, ?_, ?_, ?_, ?_, rfl⟩
  case _ =>
    unfold user_create
    rw [hnone']
  case _ =>
    unfold user_create user_get_by_email
    rw [hemail]
    have hfind : (db.users ++ [newUserRow st hash now db obj]).find?
        (fun u => u.email == obj.email) = some (newUserRow st hash now db obj) := by
      rw [List.find?_append, List.find?_eq_none.mpr hforall]
      simp [newUserRow]
    rw [hfind]
  case _ =>
    unfold countUsersWithEmail
    rw [List.filter_append, hnone]
    simp [newUserRow]
  case _ =>
    unfold countProfilesForEmail
    have husers : ((db.users ++ [newUserRow st hash now db obj]).filter
        (fun u => u.email == obj.email)) = [newUserRow st hash now db obj] := by
      rw [List.filter_append, hnone]
      simp [newUserRow]
    simp only [husers, List.any_cons, List.any_nil, Bool.or_false]
    rw [List.filter_append]
    have hstale : db.profiles.filter
        (fun p => (newUserRow st hash now db obj).id == p.user_id) = [] := by
      refine List.filter_eq_nil_iff.mpr fun p hp => ?_
      have hlt := hwf.2 p hp
      simp only [newUserRow, beq_iff_eq]
      omega
    rw [hstale]
    simp [newUserRow, newProfileRow]
  case _ => simp
  case _ => simp

/-- Witness for C8 (amended): from the empty database, registering
`carol@example.com` twice fails the second time and leaves exactly one
user row and one profile row for that email, the profile committed
separately after the user row. -/
theorem user_create_duplicate_and_pairing_witness :
    ∃ db1 commits u1,
      user_create c1Settings (fun s => s) 0 c8Db0 c8Obj = .ok (db1, commits, u1)
      ∧ user_create c1Settings (fun s => s) 1 db1 c8Obj2
          = .error "User with this email already exists"
      ∧ countUsersWithEmail db1 c8Obj.email = 1
      ∧ countProfilesForEmail db1 c8Obj.email = 1
      ∧ db1.users.length = c8Db0.users.length + 1
      ∧ db1.profiles.length = c8Db0.profiles.length + 1
      ∧ commits = [[.userIns u1], [.profileIns (newProfileRow c8Db0)]] :=
  user_create_duplicate_and_pairing c1Settings (fun s => s) 0 1 c8Db0 c8Obj c8Obj2
    rfl rfl rfl

/-- The settings of the C10 witness scenario. -/
def c10Settings : SettingsM := ⟨"another-secret", 5, 7⟩

/-- The active user of the C10 witness scenario. -/
def c10User : UserRow :=
  ⟨1, "bob@example.com", "hash", none, none, none, true, true, none, none⟩

/-- The database state of the C10 witness scenario. -/
def c10Db : DBState := ⟨[c10User], [], 2⟩

/-- Witness for C10: at the concrete scenario (token issued at time 0,
presented at time 10, well inside both lifetimes) the route accepts
the plain access token. -/
theorem refresh_route_accepts_access_token_witness :
    verify_token c10Settings
        (create_refresh_token c10Settings (toString c10User.id) 0 none) 10
      = some (toString c10User.id)
    ∧ verify_token c10Settings
        (create_access_token c10Settings (toString c10User.id) 0 none) 10
      = some (toString c10User.id)
    ∧ (refresh_token_route c10Settings c10Db
        (create_access_token c10Settings (toString c10User.id) 0 none) 10).isOk
      = true :=
  refresh_route_accepts_access_token c10Settings c10Db c10User 0 10
    (by rfl) (by rfl) (by norm_num [c10Settings]) (by norm_num [c10Settings])

end Forwarder
